import Mathlib

/-!
Shallow embedding of `test-image.py`, an end-to-end integration-test harness
for a containerized HTTP microservice.

Modelling conventions:
* Python exceptions become the `Exc` inductive; fallible computations return
  `Except Exc α`.
* Side effects (prints, docker calls, HTTP requests, sleeps, thread events)
  become an event trace: a computation is a pair `M α = List Ev × Except Exc α`.
  `M.bind` appends traces and short-circuits on an uncaught exception, which
  mirrors Python control flow; `pyFinally` mirrors `try/finally` (the
  `finally` block always runs, and an exception raised there replaces the
  outcome of the body); `tryCatchAssertionError` mirrors `except AssertionError`.
* The outside world (process environment, the HTTP service, docker logs and
  stats) is passed in as explicit parameters, since the harness only observes
  it.
* Wall-clock time is modelled by the `Ev.sleepMs` events a computation emits
  (the poller sleeps 10 ms between attempts), not by a real clock.
-/

set_option autoImplicit false

/-- Python exceptions that the harness raises or observes.  `assertionError`
carries the source text of the failing assert line (what `check` extracts from
the traceback) and the exception message. -/
inductive Exc where
  | assertionError (line msg : String)
  | keyError (key : String)
  | connError (msg : String)
  | futureTimeout
  | systemExit (code : Nat)
deriving DecidableEq

/-- Parsed JSON values, as far as the harness inspects them. -/
inductive JVal where
  | jNull
  | jBool (b : Bool)
  | jInt (n : Int)
  | jStr (s : String)
deriving DecidableEq

/-- An HTTP response as observed by the harness: status code, headers and the
body parsed as a JSON object (an association list of key/value pairs). -/
structure Response where
  status : Nat
  headers : List (String × String)
  jsonBody : List (String × JVal)
deriving DecidableEq

/-- The keyword arguments of `dockerc.containers.run` in `run_container`. -/
structure CreateConfig where
  image : String
  auto_remove : Bool
  detach : Bool
  nano_cpus : Nat
  mem_limit : String
  memswap_limit : String
  ports : List (Nat × Nat)
  environment : List (String × String)
  cpuset_cpus : String
deriving DecidableEq

/-- Observable events emitted by the harness. -/
inductive Ev where
  | print (s : String)
  | envRead (k : String)
  | dockerFromEnv
  | createContainer (cfg : CreateConfig)
  | kill
  | httpGet (url : String)
  | sleepMs (n : Nat)
  | invoke (n : String)
  | logRead
  | setEvent
  | waitResult (secs : Nat)
  | statSample
deriving DecidableEq

/-- A harness computation: the events it emits plus its outcome. -/
def M (α : Type) : Type := List Ev × Except Exc α

/-- Return a value, emitting nothing. -/
def M.pure {α : Type} (a : α) : M α := ([], Except.ok a)

/-- Sequencing: run `x`; on success run `f` on its value; an uncaught
exception short-circuits, keeping the events emitted so far. -/
def M.bind {α β : Type} (x : M α) (f : α → M β) : M β :=
  match x with
  | (t, Except.ok a) => ((t ++ (f a).1), (f a).2)
  | (t, Except.error e) => (t, Except.error e)

/-- Emit one event. -/
def emit (e : Ev) : M Unit := ([e], Except.ok ())

/-- Lift a pure fallible computation (no events). -/
def liftE {α : Type} (r : Except Exc α) : M α := ([], r)

/-- Raise an exception. -/
def raise {α : Type} (e : Exc) : M α := ([], Except.error e)

/-- Python `try: body finally: fin`: `fin` always runs; an exception raised by
`fin` replaces the outcome of the body, otherwise that outcome stands. -/
def pyFinally {α : Type} (body : M α) (fin : M Unit) : M α :=
  ((body.1 ++ fin.1),
    match fin.2 with
    | Except.error e => Except.error e
    | Except.ok _ => body.2)

/-- Python `try: body except AssertionError as e: handler`: only
`assertionError` is caught; every other exception propagates. -/
def tryCatchAssertionError (body : M Unit) (handler : String → String → M Unit) : M Unit :=
  match body with
  | (t, Except.error (Exc.assertionError l m)) =>
      ((t ++ (handler l m).1), (handler l m).2)
  | x => x

/-- Python `assert cond, payload` at source line `line`: raises
`AssertionError` carrying that line and the message of the payload. -/
def pyAssert (cond : Bool) (line msg : String) : Except Exc Unit :=
  if cond then Except.ok () else Except.error (Exc.assertionError line msg)

/-- Reading `os.environ[k]`: raises `KeyError` when the variable is absent. -/
def os_environ_get (env : String → Option String) (k : String) : M String :=
  M.bind (emit (Ev.envRead k)) (fun _ =>
    match env k with
    | some v => M.pure v
    | none => raise (Exc.keyError k))

/-- The keyword arguments `run_container` passes to `dockerc.containers.run`:
`nano_cpus = 10**9`, `mem_limit = "512m"`, `memswap_limit = mem_limit`,
`ports = 8080 to 8080`, `cpuset_cpus = "0-3"`, plus the forwarded environment. -/
def containerConfig (image host port : String) : CreateConfig :=
  { image := image
    auto_remove := true
    detach := true
    nano_cpus := 10 ^ 9
    mem_limit := ("512m")
    memswap_limit := ("512m")
    ports := [(8080, 8080)]
    environment := [(("GOOUT_ELASTIC_HOST"), host), (("GOOUT_ELASTIC_PORT"), port)]
    cpuset_cpus := ("0-3") }

/-- The `run_container` context manager: resolve the two environment
variables (a `KeyError` here aborts before any container exists), create the
container, yield to the body, and kill the container in the `finally` block. -/
def run_container (env : String → Option String) (image : String) (body : M Unit) : M Unit :=
  M.bind (os_environ_get env ("GOOUT_ELASTIC_HOST")) (fun host =>
  M.bind (os_environ_get env ("GOOUT_ELASTIC_PORT")) (fun port =>
  M.bind (emit (Ev.createContainer (containerConfig image host port))) (fun _ =>
  pyFinally body (emit Ev.kill))))

/-- The base URL of the service under test (`URL_PREFIX` in the source). -/
def URL_BASE : String := ("http://127.0.0.1:8080")

/-- Outcome of one `session.get(URL_PREFIX)` attempt during readiness polling:
a `requests` connection error (carrying its string form), a completed response
of any status, or any other exception (which the poller does not catch). -/
inductive Attempt where
  | connError (msg : String)
  | response (res : Response)
  | raises (e : Exc)
deriving DecidableEq

/-- Message of the `AssertionError` raised when the poll budget is exhausted:
names the target URL, the 15 s timeout, the last connection error and the
bind-to-all-interfaces hint. -/
def timeoutMsg (last : Option String) : String :=
  ("Failed to connect to http://127.0.0.1:8080 in 15s: ") ++
  (match last with | some m => m | none => ("None")) ++
  (". Does it listen on 0.0.0.0?")

/-- The `for _ in range(timeout * 100)` loop of `wait_for_container_ready`:
`fuel` is the number of loop iterations left, `i` the index of the next
attempt, `last` the last connection error seen.  A completed response returns
immediately; a connection error is recorded, followed by a 10 ms sleep and a
retry; any other exception propagates; an exhausted budget raises the
descriptive `AssertionError`. -/
def wait_loop (attempts : Nat → Attempt) : Nat → Nat → Option String → M Response
  | 0, _, last => raise (Exc.assertionError ("raise AssertionError") (timeoutMsg last))
  | fuel + 1, i, _last =>
      M.bind (emit (Ev.httpGet URL_BASE)) (fun _ =>
        match attempts i with
        | Attempt.response r => M.pure r
        | Attempt.raises e => raise e
        | Attempt.connError m =>
            M.bind (emit (Ev.sleepMs 10)) (fun _ =>
              wait_loop attempts fuel (i + 1) (some m)))

/-- `wait_for_container_ready`: 15 s timeout at one attempt per 10 ms, i.e.
`15 * 100 = 1500` iterations. -/
def wait_for_container_ready (attempts : Nat → Attempt) : M Response :=
  wait_loop attempts (15 * 100) 0 none

/-- Number of GET attempts recorded in a trace. -/
def getCount (t : List Ev) : Nat :=
  t.countP (fun e => match e with | Ev.httpGet _ => true | _ => false)

/-- Total milliseconds slept in a trace: the notion of elapsed time in this model. -/
def sleepTotal (t : List Ev) : Nat :=
  (t.map (fun e => match e with | Ev.sleepMs n => n | _ => 0)).sum

/-- The banner `test_image` prints after the poll returns (the model measures
the elapsed time as the milliseconds slept during the poll). -/
def ready_banner (elapsedMs : Nat) : String :=
  ("Service has started responding in ") ++ toString elapsedMs ++ (" ms.")

/-- The readiness-gating phase of `test_image`: time the poll, then print the
measured startup duration.  The return value of the poller itself (the first completed
response) is passed through. -/
def test_image_ready_phase (attempts : Nat → Attempt) : M Response :=
  M.bind (wait_for_container_ready attempts) (fun r =>
  M.bind (emit (Ev.print (ready_banner (sleepTotal (wait_for_container_ready attempts).1))))
    (fun _ => M.pure r))

/-- A check as run by `check`: the name of the function, its docstring (printed as
the description of the check) and its behavior when invoked (the collaborators a
check takes, such as the HTTP session, are already applied). -/
structure Check where
  name : String
  doc : String
  run : M Unit

/-- `check(func, *args)`: print the description, invoke the function; print
`Good` on success; catch an `AssertionError`, printing `Bad: ` followed by the
failing assert line and the message; let any other exception propagate. -/
def check (c : Check) : M Unit :=
  M.bind (emit (Ev.print (c.doc ++ (": ")))) (fun _ =>
  M.bind (emit (Ev.invoke c.name)) (fun _ =>
  tryCatchAssertionError (M.bind c.run (fun _ => emit (Ev.print ("Good"))))
    (fun line msg => emit (Ev.print (("Bad: ") ++ line ++ (": ") ++ msg)))))

/-- `perform_http_checks`: run `check` on every registered function in order. -/
def perform_http_checks : List Check → M Unit
  | [] => M.pure ()
  | c :: rest => M.bind (check c) (fun _ => perform_http_checks rest)

/-- The `http_check` decorator: append the function to the registry and
return the function unchanged. -/
def http_check (registry : List Check) (c : Check) : List Check × Check :=
  ((registry ++ [c]), c)

/-- Module initialization: each decorated function self-registers, in source
order, starting from the empty registry. -/
def register_all (cs : List Check) : List Check :=
  cs.foldl (fun reg c => (http_check reg c).1) []

/-- `session.get(url)` during the check phase: the behavior of the service is the
pure function `fetch` from URL to response. -/
def session_get (fetch : String → Response) (url : String) : M Response :=
  M.bind (emit (Ev.httpGet url)) (fun _ => M.pure (fetch url))

/-- Python `d[k]` on a string-valued mapping: `KeyError` when absent. -/
def lookupStr (l : List (String × String)) (k : String) : Except Exc String :=
  match l.lookup k with
  | some v => Except.ok v
  | none => Except.error (Exc.keyError k)

/-- Python `d[k]` on a parsed JSON object: `KeyError` when absent. -/
def jsonGet (l : List (String × JVal)) (k : String) : Except Exc JVal :=
  match l.lookup k with
  | some v => Except.ok v
  | none => Except.error (Exc.keyError k)

/-- Python `type(v) == bool`. -/
def JVal.isBool : JVal → Bool
  | JVal.jBool _ => true
  | _ => false

/-- Python `json.keys()` as a set. -/
def keysOf (l : List (String × JVal)) : Finset String := (l.map Prod.fst).toFinset

/-- The exact key set `assert_city_reply` requires. -/
def cityKeys : Finset String :=
  {("countryISO"), ("id"), ("isFeatured"), ("name"), ("regionName")}

/-- `assert_error_reply`: expected status, JSON content type, and a `message`
key in the body. -/
def assert_error_reply (res : Response) (expected_code : Nat) : Except Exc Unit := do
  pyAssert (decide (res.status = expected_code))
    ("assert res.status_code == expected_code") ("status and text")
  let ct ← lookupStr res.headers ("content-type")
  pyAssert (decide (ct = ("application/json")))
    ("assert content-type of res.headers is application/json") ("headers")
  pyAssert ((res.jsonBody.lookup ("message")).isSome)
    ("assert message in json") ("json")

/-- `assert_city_reply`: status 200, JSON content type, the key set exactly
`cityKeys`, the four literal field values, and `isFeatured` of boolean type
(its value is not asserted). -/
def assert_city_reply (res : Response) (expected_id : Int)
    (expected_city expected_region expected_country : String) : Except Exc Unit := do
  pyAssert (decide (res.status = 200)) ("assert res.status_code == 200") ("res and text")
  let ct ← lookupStr res.headers ("content-type")
  pyAssert (decide (ct = ("application/json")))
    ("assert content-type of res.headers is application/json") ("headers")
  pyAssert (decide (keysOf res.jsonBody = cityKeys))
    ("assert json.keys() == set of countryISO id isFeatured name regionName") ("json")
  let vCountry ← jsonGet res.jsonBody ("countryISO")
  pyAssert (decide (vCountry = JVal.jStr expected_country))
    ("assert json countryISO == expected_country") ("expected_country and json")
  let vId ← jsonGet res.jsonBody ("id")
  pyAssert (decide (vId = JVal.jInt expected_id))
    ("assert json id == expected_id") ("expected_id and json")
  let vFeat ← jsonGet res.jsonBody ("isFeatured")
  pyAssert vFeat.isBool ("assert type of json isFeatured == bool") ("json")
  let vName ← jsonGet res.jsonBody ("name")
  pyAssert (decide (vName = JVal.jStr expected_city))
    ("assert json name == expected_city") ("expected_city and json")
  let vRegion ← jsonGet res.jsonBody ("regionName")
  pyAssert (decide (vRegion = JVal.jStr expected_region))
    ("assert json regionName == expected_region") ("expected_region and json")

/-- `http_check_root`. -/
def http_check_root (fetch : String → Response) : M Unit :=
  M.bind (session_get fetch (URL_BASE ++ ("/"))) (fun res =>
    liftE (pyAssert (decide (res.status = 200 ∨ res.status = 404))
      ("assert res.status_code in (200, 404)") ("res and text")))

/-- `http_check_nonexistent_path`. -/
def http_check_nonexistent_path (fetch : String → Response) : M Unit :=
  M.bind (session_get fetch (URL_BASE ++ ("/fnhjkdniudsancyne"))) (fun res =>
    liftE (pyAssert (decide (res.status = 404))
      ("assert res.status_code == 404") ("res and text")))

/-- `http_check_no_params`. -/
def http_check_no_params (fetch : String → Response) : M Unit :=
  M.bind (session_get fetch (URL_BASE ++ ("/city/v1/get"))) (fun res =>
    liftE (assert_error_reply res 400))

/-- `http_check_just_id_param`. -/
def http_check_just_id_param (fetch : String → Response) : M Unit :=
  M.bind (session_get fetch (URL_BASE ++ ("/city/v1/get?id=123"))) (fun res =>
    liftE (assert_error_reply res 400))

/-- `http_check_invalid_id`. -/
def http_check_invalid_id (fetch : String → Response) : M Unit :=
  M.bind (session_get fetch (URL_BASE ++ ("/city/v1/get?id=blabla&language=cs"))) (fun res =>
    liftE (assert_error_reply res 400))

/-- `http_check_just_language_param`. -/
def http_check_just_language_param (fetch : String → Response) : M Unit :=
  M.bind (session_get fetch (URL_BASE ++ ("/city/v1/get?language=cs"))) (fun res =>
    liftE (assert_error_reply res 400))

/-- `http_check_nonexistent_city_id`. -/
def http_check_nonexistent_city_id (fetch : String → Response) : M Unit :=
  M.bind (session_get fetch (URL_BASE ++ ("/city/v1/get?id=123&language=cs"))) (fun res =>
    liftE (assert_error_reply res 404))

/-- `http_check_plzen_cs`. -/
def http_check_plzen_cs (fetch : String → Response) : M Unit :=
  M.bind (session_get fetch (URL_BASE ++ ("/city/v1/get?id=101748111&language=cs"))) (fun res =>
    liftE (assert_city_reply res 101748111 ("Plzeň") ("Plzeňský kraj") ("CZ")))

/-- `http_check_brno_de`. -/
def http_check_brno_de (fetch : String → Response) : M Unit :=
  M.bind (session_get fetch (URL_BASE ++ ("/city/v1/get?id=101748109&language=de"))) (fun res =>
    liftE (assert_city_reply res 101748109 ("Brünn") ("Südmährische Region") ("CZ")))

/-- `http_check_graz_cs_extra_param`. -/
def http_check_graz_cs_extra_param (fetch : String → Response) : M Unit :=
  M.bind
    (session_get fetch (URL_BASE ++ ("/city/v1/get?id=1108839329&language=cs&extra=paramShouldBeIgnored")))
    (fun res =>
      liftE (assert_city_reply res 1108839329 ("Štýrský Hradec") ("Štýrsko") ("AT")))

/-- The module-level registry `HTTP_CHECK_FUNCS`, populated by the decorator
in source order. -/
def HTTP_CHECK_FUNCS (fetch : String → Response) : List Check :=
  register_all
    [ { name := ("http_check_root"),
        doc := ("HTTP GET / returns 200 or 404"),
        run := http_check_root fetch },
      { name := ("http_check_nonexistent_path"),
        doc := ("HTTP GET /fnhjkdniudsancyne returns 404"),
        run := http_check_nonexistent_path fetch },
      { name := ("http_check_no_params"),
        doc := ("HTTP GET /city/v1/get returns 400 with error JSON with message"),
        run := http_check_no_params fetch },
      { name := ("http_check_just_id_param"),
        doc := ("HTTP GET /city/v1/get?id=123 returns 400 with error JSON with message"),
        run := http_check_just_id_param fetch },
      { name := ("http_check_invalid_id"),
        doc := ("HTTP GET /city/v1/get?id=blabla&language=cs returns 400 with error JSON with message"),
        run := http_check_invalid_id fetch },
      { name := ("http_check_just_language_param"),
        doc := ("HTTP GET /city/v1/get?language=cs returns 400 with error JSON with message"),
        run := http_check_just_language_param fetch },
      { name := ("http_check_nonexistent_city_id"),
        doc := ("HTTP GET /city/v1/get?id=123&language=cs returns 404 (this does not exist) with error JSON with message"),
        run := http_check_nonexistent_city_id fetch },
      { name := ("http_check_plzen_cs"),
        doc := ("HTTP GET /city/v1/get?id=101748111&language=cs returns 200 and correct object"),
        run := http_check_plzen_cs fetch },
      { name := ("http_check_brno_de"),
        doc := ("HTTP GET /city/v1/get?id=101748109&language=de returns 200 and correct object"),
        run := http_check_brno_de fetch },
      { name := ("http_check_graz_cs_extra_param"),
        doc := ("HTTP GET /city/v1/get?id=1108839329&language=cs&extra=paramShouldBeIgnored returns 200 and correct object"),
        run := http_check_graz_cs_extra_param fetch } ]

/-- `test_local`: run only the registered HTTP checks against the fixed base
URL, with a fresh HTTP session. -/
def test_local (fetch : String → Response) : M Unit :=
  perform_http_checks (HTTP_CHECK_FUNCS fetch)

/-- Python `needle in hay` on strings. -/
def strContains (hay needle : String) : Bool :=
  hay.toList.tails.any (fun t => needle.toList.isPrefixOf t)

/-- `logs_on_startup`: read the container log and assert it mentions 8080. -/
def logs_on_startup (logs : String) : M Unit :=
  M.bind (emit Ev.logRead) (fun _ =>
    liftE (pyAssert (strContains logs ("8080"))
      ("assert 8080 in out") ("lines of log")))

/-- The canary path requested by `logs_each_request`. -/
def canary_path : String := ("/blablaGOGOthisIsCanaryValue")

/-- `logs_each_request`: request the canary path, read the log, and assert the
path appears in it. -/
def logs_each_request (fetch : String → Response) (logs : String) : M Unit :=
  M.bind (session_get fetch (URL_BASE ++ canary_path)) (fun _ =>
  M.bind (emit Ev.logRead) (fun _ =>
    liftE (pyAssert (strContains logs canary_path)
      ("assert path in out") ("lines of log"))))

/-- One decoded entry of the `container.stats` stream, as far as the worker
reads it. -/
structure Sample where
  cpu_total_usage : Nat
  mem_usage : Nat
  mem_max_usage : Nat
deriving DecidableEq

/-- The `for stats in container.stats(...)` loop of `collect_stats_thread`:
process a sample, then check `event.is_set()` and break on the first check
that observes the signal.  `remaining` counts how many checks will still
observe the event as unset (the signal is set concurrently; `remaining = 0`
means the check made after the current sample already sees it set). -/
def statsGo : List Sample → Nat → M Unit
  | [], _ => M.pure ()
  | _ :: rest, remaining =>
      M.bind (emit Ev.statSample) (fun _ =>
        match remaining with
        | 0 => M.pure ()
        | r + 1 => statsGo rest r)

/-- `collect_stats_thread`, run against the stream `samples`; the check the worker makes
after sample number `stopAfter` (0-based) is the first that observes the
stop event as set. -/
def collect_stats_thread (samples : List Sample) (stopAfter : Nat) : M Unit :=
  statsGo samples stopAfter

/-- State of the worker future when the scope owner calls `result(2)`:
either the worker finished with an outcome, or it is still running after the
2-second wait. -/
inductive WorkerFin where
  | done (r : Except Exc Unit)
  | running

/-- `collect_stats_future.result(2)` followed by `assert ... is None`:
re-raises the exception the worker raised, raises a timeout error if the
worker is still running after 2 s, and otherwise passes (the worker returns
`None`). -/
def future_result (fin : WorkerFin) (timeoutSecs : Nat) : M Unit :=
  M.bind (emit (Ev.waitResult timeoutSecs)) (fun _ =>
    match fin with
    | WorkerFin.done (Except.ok _) => M.pure ()
    | WorkerFin.done (Except.error e) => raise e
    | WorkerFin.running => raise Exc.futureTimeout)

/-- The `collect_stats` context manager: start the worker, yield to the body,
and in the `finally` block set the stop event and wait (at most 2 s) on the
worker, re-raising its exception.  The trace of the worker itself is tracked
separately (it runs on another thread), so only its completion status `fin`
appears here. -/
def collect_stats (fin : WorkerFin) (body : M Unit) : M Unit :=
  pyFinally body (M.bind (emit Ev.setEvent) (fun _ => future_result fin 2))

/-- `test_image`: create the docker client, run the container scope, and
inside it print the log-tailing pointer, gate on readiness, run the two log
checks, run all registered HTTP checks, and collect stats over the (empty,
`pass`) stress phase. -/
def test_image (env : String → Option String) (image : String)
    (attempts : Nat → Attempt) (fetch : String → Response)
    (logs1 logs2 cid : String) (fin : WorkerFin) : M Unit :=
  M.bind (emit Ev.dockerFromEnv) (fun _ =>
  run_container env image (
    M.bind (emit (Ev.print (("Container started, to tail its logs: docker logs -f -t ") ++ cid)))
      (fun _ =>
    M.bind (test_image_ready_phase attempts) (fun _ =>
    M.bind (check { name := ("logs_on_startup"),
                    doc := ("Service logs a message containing 8080 (used port) on startup"),
                    run := logs_on_startup logs1 }) (fun _ =>
    M.bind (check { name := ("logs_each_request"),
                    doc := ("Service logs every request, message contains url path"),
                    run := logs_each_request fetch logs2 }) (fun _ =>
    M.bind (perform_http_checks (HTTP_CHECK_FUNCS fetch)) (fun _ =>
    collect_stats fin (M.pure ()))))))))

/-- The `__main__` block: with other than one argument, print usage and exit
with status 1; with the literal `--local`, run only the HTTP checks; with an
image reference, run the full container-based suite. -/
def py_main (argv : List String) (env : String → Option String)
    (attempts : Nat → Attempt) (fetch : String → Response)
    (logs1 logs2 cid : String) (fin : WorkerFin) : M Unit :=
  if argv.length ≠ 2 then
    M.bind (emit (Ev.print (("Usage: ") ++ argv.headD ("test-image.py") ++
      (" (docker-image/with-optional:tag | --local)")))) (fun _ =>
    raise (Exc.systemExit 1))
  else if argv.getD 1 ("") = ("--local") then
    test_local fetch
  else
    test_image env (argv.getD 1 ("")) attempts fetch logs1 logs2 cid fin

/-- Behavior of a check when invoked: succeed, fail an assertion, or raise a
non-assertion exception. -/
inductive CheckBehavior where
  | pass
  | assertFail (line msg : String)
  | otherErr (e : Exc)
deriving DecidableEq

/-- The run of a check with the given behavior (no events of its own). -/
def behaviorRun : CheckBehavior → M Unit
  | CheckBehavior.pass => M.pure ()
  | CheckBehavior.assertFail l m => raise (Exc.assertionError l m)
  | CheckBehavior.otherErr e => raise e

/-- A check with a given name, description and behavior. -/
def mkCheck (n d : String) (b : CheckBehavior) : Check :=
  { name := n, doc := d, run := behaviorRun b }

/-- The names of the checks a trace invoked, in order. -/
def invokedNames (t : List Ev) : List String :=
  t.filterMap (fun e => match e with | Ev.invoke n => some n | _ => none)

/-- Whether an exception is an `AssertionError` (the only kind `check`
catches). -/
def Exc.isAssertion : Exc → Bool
  | Exc.assertionError _ _ => true
  | _ => false

/-- A check is benign when invoking it either succeeds or fails with an
assertion error (the kind the runner catches). -/
def checkBenign (c : Check) : Bool :=
  match c.run.2 with
  | Except.ok _ => true
  | Except.error e => e.isAssertion

/-- A check whose own run does not emit `invoke` events (true of every check
in this program: checks never call `check`). -/
def invokeFree (c : Check) : Bool :=
  (invokedNames c.run.1).isEmpty

/-- Event kinds that local mode may emit: prints, check invocations, and HTTP
requests to the fixed base URL. -/
def localModeEv : Ev → Bool
  | Ev.print _ => true
  | Ev.invoke _ => true
  | Ev.httpGet url => URL_BASE.toList.isPrefixOf url.toList
  | _ => false

/-- Environment used by witnesses: both variables present. -/
def envBoth : String → Option String :=
  fun k =>
    if k = ("GOOUT_ELASTIC_HOST") then some ("eshost")
    else if k = ("GOOUT_ELASTIC_PORT") then some ("9200")
    else none

/-- Environment used by witnesses: both variables absent. -/
def envNone : String → Option String := fun _ => none

/-- A body that raises an assertion failure without killing anything. -/
def bodyFailing : M Unit :=
  ([Ev.print ("step")], Except.error (Exc.assertionError ("assert x") ("boom")))

/-- A concrete response used by witnesses. -/
def resWitness : Response := { status := 200, headers := [], jsonBody := [] }

/-- Attempts stream: ready on the very first attempt. -/
def attReadyNow : Nat → Attempt := fun _ => Attempt.response resWitness

/-- Attempts stream: three connection errors, then ready. -/
def attReadyLater : Nat → Attempt :=
  fun j => if j < 3 then Attempt.connError ("refused") else Attempt.response resWitness

/-- Attempts stream: every attempt fails with a connection error. -/
def attAllFail : Nat → Attempt := fun _ => Attempt.connError ("refused")

/-- A service stub used by witnesses: every URL yields the same response. -/
def fetchW : String → Response := fun _ => resWitness

/-- A passing check, used by witnesses. -/
def cPass : Check := mkCheck ("c_pass") ("doc pass") CheckBehavior.pass

/-- A check failing with an assertion error, used by witnesses. -/
def cFail : Check :=
  mkCheck ("c_fail") ("doc fail") (CheckBehavior.assertFail ("assert cond") ("msg"))

/-- A check raising a non-assertion exception, used by witnesses. -/
def cBoom : Check := mkCheck ("c_boom") ("doc boom") (CheckBehavior.otherErr (Exc.keyError ("k")))

theorem run_container_ok (env : String → Option String) (image host port : String)
    (body : M Unit)
    (hH : env ("GOOUT_ELASTIC_HOST") = some host)
    (hP : env ("GOOUT_ELASTIC_PORT") = some port) :
    run_container env image body =
      ((Ev.envRead ("GOOUT_ELASTIC_HOST") :: Ev.envRead ("GOOUT_ELASTIC_PORT") ::
        Ev.createContainer (containerConfig image host port) :: (body.1 ++ [Ev.kill])),
       body.2) := by
  obtain ⟨t, r⟩ := body
  simp [run_container, os_environ_get, M.bind, M.pure, emit, pyFinally, hH, hP]

/-- C1: for every exit path of the `run_container` scope (normal completion,
assertion failure, readiness-poll timeout, or any other exception raised after
the container is created), the trace ends with exactly one `kill` event in the
guaranteed-release block: teardown is never skipped. -/
theorem run_container_teardown (env : String → Option String) (image host port : String)
    (body : M Unit)
    (hH : env ("GOOUT_ELASTIC_HOST") = some host)
    (hP : env ("GOOUT_ELASTIC_PORT") = some port)
    (hk : Ev.kill ∉ body.1) :
    (run_container env image body).1.count Ev.kill = 1 ∧
    (run_container env image body).1.getLast? = some Ev.kill ∧
    (run_container env image body).2 = body.2 := by
  rw [run_container_ok env image host port body hH hP]
  refine ⟨?_, ?_, rfl⟩
  · simp [List.count_cons, List.count_append, List.count_eq_zero.mpr hk]
  · show ((Ev.envRead ("GOOUT_ELASTIC_HOST") :: Ev.envRead ("GOOUT_ELASTIC_PORT") ::
        Ev.createContainer (containerConfig image host port) :: body.1) ++
        [Ev.kill]).getLast? = some Ev.kill
    exact List.getLast?_concat _

theorem run_container_teardown_witness :
    (run_container envBoth ("img") bodyFailing).1.count Ev.kill = 1 ∧
    (run_container envBoth ("img") bodyFailing).1.getLast? = some Ev.kill ∧
    (run_container envBoth ("img") bodyFailing).2 = bodyFailing.2 :=
  run_container_teardown envBoth ("img") ("eshost") ("9200") bodyFailing rfl rfl
    (by decide)

/-- C6: the two environment variables are resolved before the container is
created; if either is absent the run fails at that point with a `KeyError`,
before any `createContainer` event, so no container ever exists. -/
theorem run_container_env_precondition (env : String → Option String) (image : String)
    (body : M Unit) :
    (env ("GOOUT_ELASTIC_HOST") = none →
      run_container env image body =
        ([Ev.envRead ("GOOUT_ELASTIC_HOST")],
         Except.error (Exc.keyError ("GOOUT_ELASTIC_HOST")))) ∧
    (∀ host, env ("GOOUT_ELASTIC_HOST") = some host → env ("GOOUT_ELASTIC_PORT") = none →
      run_container env image body =
        ([Ev.envRead ("GOOUT_ELASTIC_HOST"), Ev.envRead ("GOOUT_ELASTIC_PORT")],
         Except.error (Exc.keyError ("GOOUT_ELASTIC_PORT")))) ∧
    ((env ("GOOUT_ELASTIC_HOST") = none ∨ env ("GOOUT_ELASTIC_PORT") = none) →
      ∀ cfg, Ev.createContainer cfg ∉ (run_container env image body).1) := by
  refine ⟨?_, ?_, ?_⟩
  · intro hH
    simp [run_container, os_environ_get, M.bind, M.pure, emit, raise, hH]
  · intro host hH hP
    simp [run_container, os_environ_get, M.bind, M.pure, emit, raise, hH, hP]
  · intro hmiss cfg
    rcases hmiss with hH | hP
    · simp [run_container, os_environ_get, M.bind, M.pure, emit, raise, hH]
    · cases hHv : env ("GOOUT_ELASTIC_HOST") with
      | none => simp [run_container, os_environ_get, M.bind, M.pure, emit, raise, hHv]
      | some host =>
          simp [run_container, os_environ_get, M.bind, M.pure, emit, raise, hHv, hP]

theorem run_container_env_precondition_witness :
    run_container envNone ("img") bodyFailing =
      ([Ev.envRead ("GOOUT_ELASTIC_HOST")],
       Except.error (Exc.keyError ("GOOUT_ELASTIC_HOST"))) :=
  (run_container_env_precondition envNone ("img") bodyFailing).1 rfl

/-- C9: every container is created with the fixed resource policy
(`nano_cpus = 10^9`, cpuset `0-3` giving 4 visible CPUs, memory limit `512m`
with the memory+swap limit equal to it, host port 8080 mapped to container
port 8080), and this is the only configuration `run_container` ever creates,
independent of the image and environment values of the invocation. -/
theorem container_resource_policy :
    (∀ image host port,
      (containerConfig image host port).nano_cpus = 10 ^ 9 ∧
      (containerConfig image host port).cpuset_cpus = ("0-3") ∧
      (containerConfig image host port).mem_limit = ("512m") ∧
      (containerConfig image host port).memswap_limit =
        (containerConfig image host port).mem_limit ∧
      (containerConfig image host port).ports = [(8080, 8080)] ∧
      (containerConfig image host port).auto_remove = true ∧
      (containerConfig image host port).detach = true) ∧
    (∀ (env : String → Option String) (image host port : String) (body : M Unit),
      env ("GOOUT_ELASTIC_HOST") = some host →
      env ("GOOUT_ELASTIC_PORT") = some port →
      (∀ c, Ev.createContainer c ∉ body.1) →
      ∀ cfg, Ev.createContainer cfg ∈ (run_container env image body).1 →
        cfg = containerConfig image host port) := by
  constructor
  · intro image host port
    exact ⟨rfl, rfl, rfl, rfl, rfl, rfl, rfl⟩
  · intro env image host port body hH hP hb cfg hmem
    rw [run_container_ok env image host port body hH hP] at hmem
    simp only [List.mem_cons, List.mem_append, List.mem_singleton] at hmem
    rcases hmem with h | h | h | h | h
    · exact absurd h (by simp)
    · exact absurd h (by simp)
    · exact Ev.createContainer.inj h
    · exact absurd h (hb cfg)
    · exact absurd h (by simp)

theorem bindOkTrace {α β : Type} (x : M α) (f : α → M β) (a : α)
    (h : x.2 = Except.ok a) :
    M.bind x f = ((x.1 ++ (f a).1), (f a).2) := by
  obtain ⟨t, r⟩ := x
  cases r with
  | ok b =>
      simp only at h
      cases h
      rfl
  | error e => simp at h

theorem bindErrTrace {α β : Type} (x : M α) (f : α → M β) (e : Exc)
    (h : x.2 = Except.error e) :
    M.bind x f = (x.1, Except.error e) := by
  obtain ⟨t, r⟩ := x
  cases r with
  | ok b => simp at h
  | error e2 =>
      simp only at h
      cases h
      rfl

theorem wait_loop_getCount_le (attempts : Nat → Attempt) :
    ∀ (fuel i : Nat) (last : Option String),
      getCount (wait_loop attempts fuel i last).1 ≤ fuel := by
  intro fuel
  induction fuel with
  | zero => intro i last; simp [wait_loop, raise, getCount]
  | succ f ih =>
      intro i last
      cases h : attempts i with
      | response r =>
          simp [wait_loop, M.bind, emit, M.pure, h, getCount, List.countP_cons]
      | raises e =>
          simp [wait_loop, M.bind, emit, raise, h, getCount, List.countP_cons]
      | connError m =>
          have hrec := ih (i + 1) (some m)
          simp [wait_loop, M.bind, emit, h, getCount, List.countP_cons,
            List.countP_append] at hrec ⊢
          omega

theorem wait_loop_success (attempts : Nat → Attempt) :
    ∀ (k fuel i : Nat) (last : Option String) (r : Response),
      k < fuel →
      (∀ j, j < k → ∃ m, attempts (i + j) = Attempt.connError m) →
      attempts (i + k) = Attempt.response r →
      (wait_loop attempts fuel i last).2 = Except.ok r ∧
      getCount (wait_loop attempts fuel i last).1 = k + 1 ∧
      sleepTotal (wait_loop attempts fuel i last).1 = 10 * k := by
  intro k
  induction k with
  | zero =>
      intro fuel i last r hk _hconn hresp
      obtain ⟨f, rfl⟩ : ∃ f, fuel = f + 1 := ⟨fuel - 1, by omega⟩
      rw [Nat.add_zero] at hresp
      simp [wait_loop, M.bind, emit, M.pure, hresp, getCount, sleepTotal, List.countP_cons]
  | succ k ih =>
      intro fuel i last r hk hconn hresp
      obtain ⟨f, rfl⟩ : ∃ f, fuel = f + 1 := ⟨fuel - 1, by omega⟩
      obtain ⟨m, hm⟩ := hconn 0 (by omega)
      rw [Nat.add_zero] at hm
      have ihapp := ih f (i + 1) (some m) r (by omega)
        (fun j hj => by
          obtain ⟨mm, hmm⟩ := hconn (j + 1) (by omega)
          exact ⟨mm, by rw [show i + 1 + j = i + (j + 1) by omega]; exact hmm⟩)
        (by rw [show i + 1 + k = i + (k + 1) by omega]; exact hresp)
      have hstep : wait_loop attempts (f + 1) i last =
          ((Ev.httpGet URL_BASE :: Ev.sleepMs 10 ::
            (wait_loop attempts f (i + 1) (some m)).1),
           (wait_loop attempts f (i + 1) (some m)).2) := by
        simp [wait_loop, M.bind, emit, hm]
      rw [hstep]
      obtain ⟨h1, h2, h3⟩ := ihapp
      refine ⟨h1, ?_, ?_⟩
      · simp only [getCount, List.countP_cons] at h2 ⊢
        simp [h2]
      · simp only [sleepTotal, List.map_cons, List.sum_cons] at h3 ⊢
        omega

theorem wait_loop_timeout (attempts : Nat → Attempt) (m : Nat → String) :
    ∀ (fuel i : Nat) (last : Option String),
      (∀ j, j < fuel + 1 → attempts (i + j) = Attempt.connError (m (i + j))) →
      (wait_loop attempts (fuel + 1) i last).2 =
        Except.error (Exc.assertionError ("raise AssertionError")
          (timeoutMsg (some (m (i + fuel))))) := by
  intro fuel
  induction fuel with
  | zero =>
      intro i last hconn
      have hm := hconn 0 (by omega)
      rw [Nat.add_zero] at hm
      simp [wait_loop, M.bind, emit, raise, hm]
  | succ f ih =>
      intro i last hconn
      have hm := hconn 0 (by omega)
      rw [Nat.add_zero] at hm
      have ihapp := ih (i + 1) (some (m i))
        (fun j hj => by
          have := hconn (j + 1) (by omega)
          rw [show i + (j + 1) = i + 1 + j by omega] at this
          exact this)
      have hstep : (wait_loop attempts (f + 1 + 1) i last).2 =
          (wait_loop attempts (f + 1) (i + 1) (some (m i))).2 := by
        simp [wait_loop, M.bind, emit, hm]
      rw [hstep, ihapp, show i + 1 + f = i + (f + 1) by omega]

/-- C3: the readiness poller performs at most 1500 GET attempts; an attempt
failing with a connection error is retried after a 10 ms sleep, while the
first attempt that completes (any HTTP status) ends the poll successfully
with that response; if all 1500 attempts fail with connection errors, it
raises an `AssertionError` whose message names the target URL, the 15 s
timeout, the last connection error, and the bind-to-0.0.0.0 hint. -/
theorem wait_for_container_ready_spec (attempts : Nat → Attempt) :
    (getCount (wait_for_container_ready attempts).1 ≤ 1500) ∧
    (∀ k r, k < 1500 →
      (∀ j, j < k → ∃ m, attempts j = Attempt.connError m) →
      attempts k = Attempt.response r →
      (wait_for_container_ready attempts).2 = Except.ok r ∧
      getCount (wait_for_container_ready attempts).1 = k + 1 ∧
      sleepTotal (wait_for_container_ready attempts).1 = 10 * k) ∧
    (∀ m : Nat → String,
      (∀ j, j < 1500 → attempts j = Attempt.connError (m j)) →
      (wait_for_container_ready attempts).2 =
        Except.error (Exc.assertionError ("raise AssertionError")
          (("Failed to connect to http://127.0.0.1:8080 in 15s: ") ++ m 1499 ++
           (". Does it listen on 0.0.0.0?")))) := by
  refine ⟨?_, ?_, ?_⟩
  · have := wait_loop_getCount_le attempts (15 * 100) 0 none
    simpa [wait_for_container_ready] using this
  · intro k r hk hconn hresp
    have := wait_loop_success attempts k (15 * 100) 0 none r (by omega)
      (fun j hj => by simpa using hconn j hj)
      (by simpa using hresp)
    simpa [wait_for_container_ready] using this
  · intro m hconn
    have := wait_loop_timeout attempts m 1499 0 none
      (fun j hj => by simpa using hconn j (by omega))
    simpa [wait_for_container_ready, timeoutMsg] using this

theorem wait_for_container_ready_spec_witness :
    ((wait_for_container_ready attReadyLater).2 = Except.ok resWitness ∧
     getCount (wait_for_container_ready attReadyLater).1 = 4 ∧
     sleepTotal (wait_for_container_ready attReadyLater).1 = 30) ∧
    (wait_for_container_ready attAllFail).2 =
      Except.error (Exc.assertionError ("raise AssertionError")
        (("Failed to connect to http://127.0.0.1:8080 in 15s: ") ++ ("refused") ++
         (". Does it listen on 0.0.0.0?"))) := by
  constructor
  · exact (wait_for_container_ready_spec attReadyLater).2.1 3 resWitness (by omega)
      (fun j hj => ⟨("refused"), by simp [attReadyLater, hj]⟩)
      (by simp [attReadyLater])
  · exact (wait_for_container_ready_spec attAllFail).2.2 (fun _ => ("refused"))
      (fun j _ => rfl)

theorem test_image_ready_phase_ok (attempts : Nat → Attempt) (r : Response)
    (h : (wait_for_container_ready attempts).2 = Except.ok r) :
    test_image_ready_phase attempts =
      (((wait_for_container_ready attempts).1 ++
        [Ev.print (ready_banner (sleepTotal (wait_for_container_ready attempts).1))]),
       Except.ok r) := by
  unfold test_image_ready_phase
  rw [bindOkTrace _ _ r h]
  simp [M.bind, emit, M.pure]

/-- C4, counterexample: the readiness poller does not return the elapsed
time-to-ready.  Two attempt streams with different times-to-ready (0 ms of
waiting against 30 ms of waiting) make the poller return the very same value,
namely the first completed HTTP response, so its return value carries no
elapsed-time information. -/
theorem wait_ready_return_counterexample :
    (wait_for_container_ready attReadyNow).2 = (wait_for_container_ready attReadyLater).2 ∧
    sleepTotal (wait_for_container_ready attReadyNow).1 = 0 ∧
    sleepTotal (wait_for_container_ready attReadyLater).1 = 30 ∧
    (wait_for_container_ready attReadyNow).2 = Except.ok resWitness := by
  have hA := wait_loop_success attReadyNow 0 (15 * 100) 0 none resWitness (by omega)
    (fun j hj => absurd hj (by omega)) rfl
  have hB := wait_loop_success attReadyLater 3 (15 * 100) 0 none resWitness (by omega)
    (fun j hj => ⟨("refused"), by simp [attReadyLater, hj]⟩)
    (by simp [attReadyLater])
  have hA2 : (wait_for_container_ready attReadyNow).2 = Except.ok resWitness := hA.1
  have hB2 : (wait_for_container_ready attReadyLater).2 = Except.ok resWitness := hB.1
  exact ⟨hA2.trans hB2.symm, hA.2.2, hB.2.2, hA2⟩

/-- C4 (amended): on success the readiness poller returns the first completed
HTTP response to its caller; the elapsed time-to-ready is measured around the
poll by the caller `test_image`, which prints it (here: the milliseconds slept
during the poll, 10 ms per failed attempt). -/
theorem wait_ready_returns_response_caller_times (attempts : Nat → Attempt) :
    ∀ k r, k < 1500 →
      (∀ j, j < k → ∃ m, attempts j = Attempt.connError m) →
      attempts k = Attempt.response r →
      (wait_for_container_ready attempts).2 = Except.ok r ∧
      (test_image_ready_phase attempts).2 = Except.ok r ∧
      Ev.print (ready_banner (10 * k)) ∈ (test_image_ready_phase attempts).1 := by
  intro k r hk hconn hresp
  have hs := wait_loop_success attempts k (15 * 100) 0 none r (by omega)
    (fun j hj => by simpa using hconn j hj)
    (by simpa using hresp)
  have h2 : (wait_for_container_ready attempts).2 = Except.ok r := hs.1
  have hst : sleepTotal (wait_for_container_ready attempts).1 = 10 * k := hs.2.2
  rw [test_image_ready_phase_ok attempts r h2]
  refine ⟨h2, rfl, ?_⟩
  rw [hst]
  simp

theorem wait_ready_returns_response_caller_times_witness :
    (wait_for_container_ready attReadyLater).2 = Except.ok resWitness ∧
    (test_image_ready_phase attReadyLater).2 = Except.ok resWitness ∧
    Ev.print (ready_banner 30) ∈ (test_image_ready_phase attReadyLater).1 := by
  have := wait_ready_returns_response_caller_times attReadyLater 3 resWitness (by omega)
    (fun j hj => ⟨("refused"), by simp [attReadyLater, hj]⟩)
    (by simp [attReadyLater])
  simpa using this

theorem statsGo_spec (samples : List Sample) :
    ∀ stopAfter : Nat,
      ((statsGo samples stopAfter).1.countP
          (fun e => match e with | Ev.statSample => true | _ => false) =
        min (stopAfter + 1) samples.length) ∧
      (statsGo samples stopAfter).2 = Except.ok () := by
  induction samples with
  | nil => intro r; simp [statsGo, M.pure]
  | cons s rest ih =>
      intro r
      cases r with
      | zero => simp [statsGo, M.bind, emit, M.pure, List.countP_cons]
      | succ r =>
          have hr := ih r
          constructor
          · simp only [statsGo, M.bind, emit, List.countP_cons, List.cons_append,
              List.nil_append, List.countP_cons] at hr ⊢
            simp [hr.1]
            omega
          · simp [statsGo, M.bind, emit, hr.2]

/-- C5: on every exit of the `collect_stats` scope (normal or exceptional) the
scope owner sets the stop event and then waits at most 2 seconds on the worker
future, re-raising any exception the worker raised (and only then letting the
outcome of the body itself stand); the worker checks the stop signal after processing
each sample and exits its loop on the first check that observes the signal,
having processed `min (stopAfter + 1) (number of samples)` samples. -/
theorem collect_stats_spec :
    (∀ (fin : WorkerFin) (body : M Unit),
      (collect_stats fin body).1 = body.1 ++ [Ev.setEvent, Ev.waitResult 2]) ∧
    (∀ (body : M Unit) (e : Exc),
      (collect_stats (WorkerFin.done (Except.error e)) body).2 = Except.error e) ∧
    (∀ body : M Unit,
      (collect_stats (WorkerFin.done (Except.ok ())) body).2 = body.2) ∧
    (∀ body : M Unit,
      (collect_stats WorkerFin.running body).2 = Except.error Exc.futureTimeout) ∧
    (∀ (samples : List Sample) (stopAfter : Nat),
      ((collect_stats_thread samples stopAfter).1.countP
          (fun e => match e with | Ev.statSample => true | _ => false) =
        min (stopAfter + 1) samples.length) ∧
      (collect_stats_thread samples stopAfter).2 = Except.ok ()) := by
  refine ⟨?_, ?_, ?_, ?_, ?_⟩
  · intro fin body
    cases fin with
    | running => simp [collect_stats, pyFinally, future_result, M.bind, emit, raise]
    | done r =>
        cases r with
        | ok a => simp [collect_stats, pyFinally, future_result, M.bind, emit, M.pure]
        | error e => simp [collect_stats, pyFinally, future_result, M.bind, emit, raise]
  · intro body e
    simp [collect_stats, pyFinally, future_result, M.bind, emit, raise]
  · intro body
    simp [collect_stats, pyFinally, future_result, M.bind, emit, M.pure]
  · intro body
    simp [collect_stats, pyFinally, future_result, M.bind, emit, raise]
  · intro samples stopAfter
    exact statsGo_spec samples stopAfter

theorem container_resource_policy_witness :
    (containerConfig ("img") ("eshost") ("9200")).nano_cpus = 10 ^ 9 ∧
    (containerConfig ("img") ("eshost") ("9200")).cpuset_cpus = ("0-3") ∧
    containerConfig ("img") ("eshost") ("9200") =
      containerConfig ("img") ("eshost") ("9200") :=
  ⟨(container_resource_policy.1 ("img") ("eshost") ("9200")).1,
   (container_resource_policy.1 ("img") ("eshost") ("9200")).2.1,
   container_resource_policy.2 envBoth ("img") ("eshost") ("9200") bodyFailing rfl rfl
     (fun c => by simp [bodyFailing])
     (containerConfig ("img") ("eshost") ("9200"))
     (by
       rw [run_container_ok envBoth ("img") ("eshost") ("9200") bodyFailing rfl rfl]
       simp)⟩

theorem check_run_ok (c : Check) (h : c.run.2 = Except.ok ()) :
    check c = ((Ev.print (c.doc ++ (": ")) :: Ev.invoke c.name ::
      (c.run.1 ++ [Ev.print ("Good")])), Except.ok ()) := by
  obtain ⟨n, d, t, r⟩ := c
  obtain rfl : r = Except.ok () := h
  simp [check, M.bind, emit, tryCatchAssertionError]

theorem check_run_assert (c : Check) (l m : String)
    (h : c.run.2 = Except.error (Exc.assertionError l m)) :
    check c = ((Ev.print (c.doc ++ (": ")) :: Ev.invoke c.name ::
      (c.run.1 ++ [Ev.print ((("Bad: ") ++ l ++ (": ") ++ m))])), Except.ok ()) := by
  obtain ⟨n, d, t, r⟩ := c
  obtain rfl : r = Except.error (Exc.assertionError l m) := h
  simp [check, M.bind, emit, tryCatchAssertionError]

theorem check_run_raise (c : Check) (e : Exc) (he : e.isAssertion = false)
    (h : c.run.2 = Except.error e) :
    check c = ((Ev.print (c.doc ++ (": ")) :: Ev.invoke c.name :: c.run.1),
      Except.error e) := by
  obtain ⟨n, d, t, r⟩ := c
  obtain rfl : r = Except.error e := h
  cases e with
  | assertionError l m => simp [Exc.isAssertion] at he
  | keyError k => simp [check, M.bind, emit, tryCatchAssertionError]
  | connError m => simp [check, M.bind, emit, tryCatchAssertionError]
  | futureTimeout => simp [check, M.bind, emit, tryCatchAssertionError]
  | systemExit n => simp [check, M.bind, emit, tryCatchAssertionError]

theorem check_res_benign (c : Check) (hb : checkBenign c = true) :
    (check c).2 = Except.ok () := by
  cases hr : c.run.2 with
  | ok a =>
      cases a
      rw [check_run_ok c hr]
  | error e =>
      cases e with
      | assertionError l m => rw [check_run_assert c l m hr]
      | keyError k => simp [checkBenign, hr, Exc.isAssertion] at hb
      | connError m => simp [checkBenign, hr, Exc.isAssertion] at hb
      | futureTimeout => simp [checkBenign, hr, Exc.isAssertion] at hb
      | systemExit n => simp [checkBenign, hr, Exc.isAssertion] at hb

theorem check_names (c : Check) (hi : invokeFree c = true) :
    invokedNames (check c).1 = [c.name] := by
  have hrun : invokedNames c.run.1 = [] := by
    simpa [invokeFree, List.isEmpty_iff] using hi
  cases hr : c.run.2 with
  | ok a =>
      cases a
      rw [check_run_ok c hr]
      simp [invokedNames, List.filterMap_append] at hrun ⊢
      exact hrun
  | error e =>
      cases e with
      | assertionError l m =>
          rw [check_run_assert c l m hr]
          simp [invokedNames, List.filterMap_append] at hrun ⊢
          exact hrun
      | keyError k =>
          rw [check_run_raise c (Exc.keyError k) rfl hr]
          simpa [invokedNames] using hrun
      | connError m =>
          rw [check_run_raise c (Exc.connError m) rfl hr]
          simpa [invokedNames] using hrun
      | futureTimeout =>
          rw [check_run_raise c Exc.futureTimeout rfl hr]
          simpa [invokedNames] using hrun
      | systemExit n =>
          rw [check_run_raise c (Exc.systemExit n) rfl hr]
          simpa [invokedNames] using hrun

theorem perform_benign (cs : List Check)
    (hb : ∀ x ∈ cs, checkBenign x = true) (hi : ∀ x ∈ cs, invokeFree x = true) :
    invokedNames (perform_http_checks cs).1 = cs.map Check.name ∧
    (perform_http_checks cs).2 = Except.ok () := by
  induction cs with
  | nil => simp [perform_http_checks, M.pure, invokedNames]
  | cons c rest ih =>
      have hc : (check c).2 = Except.ok () := check_res_benign c (hb c (by simp))
      have hn : invokedNames (check c).1 = [c.name] := check_names c (hi c (by simp))
      have hrest := ih (fun x hx => hb x (by simp [hx])) (fun x hx => hi x (by simp [hx]))
      have hstep : perform_http_checks (c :: rest) =
          (((check c).1 ++ (perform_http_checks rest).1), (perform_http_checks rest).2) := by
        simp only [perform_http_checks]
        exact bindOkTrace (check c) _ () hc
      rw [hstep]
      constructor
      · simp only [invokedNames, List.filterMap_append] at hn hrest ⊢
        simp [hn, hrest.1]
      · exact hrest.2

theorem perform_abort (pre : List Check) (c : Check) (post : List Check) (e : Exc)
    (hb : ∀ x ∈ pre, checkBenign x = true) (hi : ∀ x ∈ pre, invokeFree x = true)
    (hic : invokeFree c = true) (he : e.isAssertion = false)
    (hc : c.run.2 = Except.error e) :
    (perform_http_checks (pre ++ c :: post)).2 = Except.error e ∧
    invokedNames (perform_http_checks (pre ++ c :: post)).1 =
      pre.map Check.name ++ [c.name] := by
  induction pre with
  | nil =>
      have hck2 : (check c).2 = Except.error e := by
        rw [check_run_raise c e he hc]
      have hstep : perform_http_checks (c :: post) =
          ((check c).1, Except.error e) := by
        simp only [perform_http_checks]
        exact bindErrTrace (check c) _ e hck2
      rw [List.nil_append, hstep]
      exact ⟨rfl, check_names c hic⟩
  | cons p pre ih =>
      have hp : (check p).2 = Except.ok () := check_res_benign p (hb p (by simp))
      have hn : invokedNames (check p).1 = [p.name] := check_names p (hi p (by simp))
      have hrest := ih (fun x hx => hb x (by simp [hx])) (fun x hx => hi x (by simp [hx]))
      have hstep : perform_http_checks (p :: (pre ++ c :: post)) =
          (((check p).1 ++ (perform_http_checks (pre ++ c :: post)).1),
           (perform_http_checks (pre ++ c :: post)).2) := by
        simp only [perform_http_checks]
        exact bindOkTrace (check p) _ () hp
      simp only [List.cons_append, hstep]
      refine ⟨hrest.1, ?_⟩
      simp only [invokedNames, List.filterMap_append] at hn hrest ⊢
      simp [hn, hrest.2]

theorem foldl_append_init (cs : List Check) :
    ∀ init : List Check, cs.foldl (fun reg c => reg ++ [c]) init = init ++ cs := by
  induction cs with
  | nil => intro init; simp
  | cons c rest ih => intro init; simp [ih]

theorem register_all_id (cs : List Check) : register_all cs = cs := by
  simpa using foldl_append_init cs []

/-- C2: for every check the runner prints the description first; a check that
raises no exception makes it print `Good`; an assertion-style failure is
caught and reported as `Bad: ` followed by the failing condition and message,
and every subsequent check still runs (when all failures are assertion-style,
every check in the list is invoked, in order, and the run succeeds); a
non-assertion exception is not caught: it propagates out of the runner,
aborting the run right after the raising check. -/
theorem check_runner_isolation :
    (∀ c : Check, c.run.2 = Except.ok () →
      check c = ((Ev.print (c.doc ++ (": ")) :: Ev.invoke c.name ::
        (c.run.1 ++ [Ev.print ("Good")])), Except.ok ())) ∧
    (∀ (c : Check) (l m : String), c.run.2 = Except.error (Exc.assertionError l m) →
      check c = ((Ev.print (c.doc ++ (": ")) :: Ev.invoke c.name ::
        (c.run.1 ++ [Ev.print ((("Bad: ") ++ l ++ (": ") ++ m))])), Except.ok ())) ∧
    (∀ (c : Check) (e : Exc), e.isAssertion = false → c.run.2 = Except.error e →
      check c = ((Ev.print (c.doc ++ (": ")) :: Ev.invoke c.name :: c.run.1),
        Except.error e)) ∧
    (∀ cs : List Check,
      (∀ x ∈ cs, checkBenign x = true) → (∀ x ∈ cs, invokeFree x = true) →
      invokedNames (perform_http_checks cs).1 = cs.map Check.name ∧
      (perform_http_checks cs).2 = Except.ok ()) ∧
    (∀ (pre : List Check) (c : Check) (post : List Check) (e : Exc),
      (∀ x ∈ pre, checkBenign x = true) → (∀ x ∈ pre, invokeFree x = true) →
      invokeFree c = true → e.isAssertion = false → c.run.2 = Except.error e →
      (perform_http_checks (pre ++ c :: post)).2 = Except.error e ∧
      invokedNames (perform_http_checks (pre ++ c :: post)).1 =
        pre.map Check.name ++ [c.name]) :=
  ⟨check_run_ok, check_run_assert, check_run_raise, perform_benign, perform_abort⟩

theorem check_runner_isolation_witness :
    check cPass = ((Ev.print (("doc pass") ++ (": ")) :: Ev.invoke ("c_pass") ::
      ([] ++ [Ev.print ("Good")])), Except.ok ()) ∧
    check cFail = ((Ev.print (("doc fail") ++ (": ")) :: Ev.invoke ("c_fail") ::
      ([] ++ [Ev.print ((("Bad: ") ++ ("assert cond") ++ (": ") ++ ("msg")))])),
      Except.ok ()) ∧
    (invokedNames (perform_http_checks [cFail, cPass]).1 = [("c_fail"), ("c_pass")] ∧
      (perform_http_checks [cFail, cPass]).2 = Except.ok ()) ∧
    ((perform_http_checks [cPass, cBoom, cPass]).2 =
        Except.error (Exc.keyError ("k")) ∧
      invokedNames (perform_http_checks [cPass, cBoom, cPass]).1 =
        [("c_pass"), ("c_boom")]) :=
  ⟨check_runner_isolation.1 cPass rfl,
   check_runner_isolation.2.1 cFail ("assert cond") ("msg") rfl,
   by
     have := check_runner_isolation.2.2.2.1 [cFail, cPass] (by decide) (by decide)
     simpa using this,
   by
     have := check_runner_isolation.2.2.2.2 [cPass] cBoom [cPass] (Exc.keyError ("k"))
       (by decide) (by decide) (by decide) rfl rfl
     simpa using this⟩

/-- C7, counterexample: registration order does equal execution order, but the
runner does not always invoke every registered check: with the registry
`[cBoom, cPass]` (where `cBoom` raises a non-assertion `KeyError`), the run
aborts after `cBoom` and `cPass` is never invoked, so the registered checks
are not each invoked exactly once. -/
theorem registry_order_counterexample :
    register_all [cBoom, cPass] = [cBoom, cPass] ∧
    invokedNames (perform_http_checks (register_all [cBoom, cPass])).1 = [("c_boom")] ∧
    invokedNames (perform_http_checks (register_all [cBoom, cPass])).1 ≠
      (register_all [cBoom, cPass]).map Check.name := by
  refine ⟨rfl, rfl, ?_⟩
  decide

/-- C7 (amended): the registry built by the decorator is append-only and
preserves registration order; the runner invokes the registered checks in
registration order, each at most once: all of them exactly once when no check
raises a non-assertion exception, and otherwise exactly the checks up to and
including the first such check. -/
theorem registry_order_execution :
    (∀ cs : List Check, register_all cs = cs) ∧
    (∀ cs : List Check,
      (∀ x ∈ cs, checkBenign x = true) → (∀ x ∈ cs, invokeFree x = true) →
      invokedNames (perform_http_checks (register_all cs)).1 = cs.map Check.name ∧
      (perform_http_checks (register_all cs)).2 = Except.ok ()) ∧
    (∀ (pre : List Check) (c : Check) (post : List Check) (e : Exc),
      (∀ x ∈ pre, checkBenign x = true) → (∀ x ∈ pre, invokeFree x = true) →
      invokeFree c = true → e.isAssertion = false → c.run.2 = Except.error e →
      invokedNames (perform_http_checks (register_all (pre ++ c :: post))).1 =
        pre.map Check.name ++ [c.name]) := by
  refine ⟨register_all_id, ?_, ?_⟩
  · intro cs hb hi
    rw [register_all_id]
    exact perform_benign cs hb hi
  · intro pre c post e hb hi hic he hc
    rw [register_all_id]
    exact (perform_abort pre c post e hb hi hic he hc).2

theorem registry_order_execution_witness :
    register_all [cFail, cPass] = [cFail, cPass] ∧
    invokedNames (perform_http_checks (register_all [cFail, cPass])).1 =
      [("c_fail"), ("c_pass")] ∧
    invokedNames (perform_http_checks (register_all ([cPass] ++ cBoom :: [cFail]))).1 =
      [("c_pass"), ("c_boom")] :=
  ⟨registry_order_execution.1 [cFail, cPass],
   by
     have := registry_order_execution.2.1 [cFail, cPass] (by decide) (by decide)
     simpa using this.1,
   by
     have := registry_order_execution.2.2 [cPass] cBoom [cFail] (Exc.keyError ("k"))
       (by decide) (by decide) (by decide) rfl rfl
     simpa using this⟩

theorem exceptBindU_ok {ε β : Type} (x : Except ε Unit) (f : Unit → Except ε β) (b : β) :
    (x >>= f) = Except.ok b ↔ (x = Except.ok () ∧ f () = Except.ok b) := by
  cases x with
  | ok a => cases a; simp [Bind.bind, Except.bind]
  | error e => simp [Bind.bind, Except.bind]

theorem exceptBind_ok {ε α β : Type} (x : Except ε α) (f : α → Except ε β) (b : β) :
    (x >>= f) = Except.ok b ↔ ∃ a, x = Except.ok a ∧ f a = Except.ok b := by
  cases x <;> simp [Bind.bind, Except.bind]

theorem pyAssert_ok (cond : Bool) (line msg : String) (u : Unit) :
    pyAssert cond line msg = Except.ok u ↔ cond = true := by
  cases u
  cases cond <;> simp [pyAssert]

theorem lookupStr_ok (l : List (String × String)) (k v : String) :
    lookupStr l k = Except.ok v ↔ l.lookup k = some v := by
  unfold lookupStr
  cases h : l.lookup k <;> simp

theorem jsonGet_ok (l : List (String × JVal)) (k : String) (v : JVal) :
    jsonGet l k = Except.ok v ↔ l.lookup k = some v := by
  unfold jsonGet
  cases h : l.lookup k <;> simp

theorem JVal.isBool_iff (v : JVal) : v.isBool = true ↔ ∃ b, v = JVal.jBool b := by
  cases v <;> simp [JVal.isBool]

theorem exists_lookup_eq {α : Type} (o : Option α) (x : α) (P : Prop) :
    (∃ a, o = some a ∧ a = x ∧ P) ↔ (o = some x ∧ P) := by
  constructor
  · rintro ⟨a, h1, rfl, h3⟩
    exact ⟨h1, h3⟩
  · rintro ⟨h1, h2⟩
    exact ⟨x, h1, rfl, h2⟩

theorem exists_lookup_or {α : Type} (o : Option α) (x y : α) (P : Prop) :
    (∃ a, o = some a ∧ (a = x ∨ a = y) ∧ P) ↔ ((o = some x ∨ o = some y) ∧ P) := by
  constructor
  · rintro ⟨a, h1, h2 | h2, h3⟩
    · subst h2
      exact ⟨Or.inl h1, h3⟩
    · subst h2
      exact ⟨Or.inr h1, h3⟩
  · rintro ⟨h1 | h1, h2⟩
    · exact ⟨x, h1, Or.inl rfl, h2⟩
    · exact ⟨y, h1, Or.inr rfl, h2⟩

theorem assert_city_reply_ok_iff (res : Response) (expected_id : Int)
    (city region country : String) :
    (assert_city_reply res expected_id city region country = Except.ok ()) ↔
      (res.status = 200 ∧
       res.headers.lookup ("content-type") = some ("application/json") ∧
       keysOf res.jsonBody = cityKeys ∧
       res.jsonBody.lookup ("countryISO") = some (JVal.jStr country) ∧
       res.jsonBody.lookup ("id") = some (JVal.jInt expected_id) ∧
       (∃ b, res.jsonBody.lookup ("isFeatured") = some (JVal.jBool b)) ∧
       res.jsonBody.lookup ("name") = some (JVal.jStr city) ∧
       res.jsonBody.lookup ("regionName") = some (JVal.jStr region)) := by
  simp [assert_city_reply, exceptBind_ok, pyAssert_ok,
    lookupStr_ok, jsonGet_ok, decide_eq_true_eq, JVal.isBool_iff,
    exists_lookup_eq, exists_lookup_or]

/-- C8: the city-reply assertion passes exactly when the status is 200, the
content-type header equals `application/json`, the key set of the JSON body is
exactly the five city keys, the `countryISO`, `id`, `name` and `regionName`
values equal the expected literals, and `isFeatured` is of boolean type (its
value is not asserted); in particular `http_check_plzen_cs` requests
`/city/v1/get?id=101748111&language=cs` and passes exactly when that response
carries id 101748111, name `Plzeň`, regionName `Plzeňský kraj` and
countryISO `CZ` under those same rules. -/
theorem city_reply_assertion_spec :
    (∀ (res : Response) (expected_id : Int) (city region country : String),
      (assert_city_reply res expected_id city region country = Except.ok ()) ↔
        (res.status = 200 ∧
         res.headers.lookup ("content-type") = some ("application/json") ∧
         keysOf res.jsonBody = cityKeys ∧
         res.jsonBody.lookup ("countryISO") = some (JVal.jStr country) ∧
         res.jsonBody.lookup ("id") = some (JVal.jInt expected_id) ∧
         (∃ b, res.jsonBody.lookup ("isFeatured") = some (JVal.jBool b)) ∧
         res.jsonBody.lookup ("name") = some (JVal.jStr city) ∧
         res.jsonBody.lookup ("regionName") = some (JVal.jStr region))) ∧
    (∀ fetch : String → Response,
      ((http_check_plzen_cs fetch).2 = Except.ok ()) ↔
        ((fetch (URL_BASE ++ ("/city/v1/get?id=101748111&language=cs"))).status = 200 ∧
         (fetch (URL_BASE ++ ("/city/v1/get?id=101748111&language=cs"))).headers.lookup
             ("content-type") = some ("application/json") ∧
         keysOf (fetch (URL_BASE ++ ("/city/v1/get?id=101748111&language=cs"))).jsonBody =
           cityKeys ∧
         (fetch (URL_BASE ++ ("/city/v1/get?id=101748111&language=cs"))).jsonBody.lookup
             ("countryISO") = some (JVal.jStr ("CZ")) ∧
         (fetch (URL_BASE ++ ("/city/v1/get?id=101748111&language=cs"))).jsonBody.lookup
             ("id") = some (JVal.jInt 101748111) ∧
         (∃ b, (fetch (URL_BASE ++ ("/city/v1/get?id=101748111&language=cs"))).jsonBody.lookup
             ("isFeatured") = some (JVal.jBool b)) ∧
         (fetch (URL_BASE ++ ("/city/v1/get?id=101748111&language=cs"))).jsonBody.lookup
             ("name") = some (JVal.jStr ("Plzeň")) ∧
         (fetch (URL_BASE ++ ("/city/v1/get?id=101748111&language=cs"))).jsonBody.lookup
             ("regionName") = some (JVal.jStr ("Plzeňský kraj")))) := by
  constructor
  · exact assert_city_reply_ok_iff
  · intro fetch
    have hred : (http_check_plzen_cs fetch).2 =
        assert_city_reply (fetch (URL_BASE ++ ("/city/v1/get?id=101748111&language=cs")))
          101748111 ("Plzeň") ("Plzeňský kraj") ("CZ") := by
      simp [http_check_plzen_cs, session_get, M.bind, emit, M.pure, liftE]
    rw [hred]
    exact assert_city_reply_ok_iff _ 101748111 ("Plzeň") ("Plzeňský kraj") ("CZ")

theorem mem_bind_trace {α β : Type} (x : M α) (f : α → M β) (e : Ev)
    (h : e ∈ (M.bind x f).1) :
    e ∈ x.1 ∨ ∃ a, x.2 = Except.ok a ∧ e ∈ (f a).1 := by
  obtain ⟨t, r⟩ := x
  cases r with
  | ok a =>
      simp only [M.bind, List.mem_append] at h
      rcases h with h | h
      · exact Or.inl h
      · exact Or.inr ⟨a, rfl, h⟩
  | error e2 => exact Or.inl h

theorem check_events (c : Check) (e : Ev) (h : e ∈ (check c).1) :
    e ∈ c.run.1 ∨ (∃ s, e = Ev.print s) ∨ e = Ev.invoke c.name := by
  cases hr : c.run.2 with
  | ok a =>
      cases a
      rw [check_run_ok c hr] at h
      simp only [List.mem_cons, List.mem_append, List.mem_singleton,
        List.not_mem_nil, or_false] at h
      rcases h with rfl | rfl | h | rfl
      · exact Or.inr (Or.inl ⟨_, rfl⟩)
      · exact Or.inr (Or.inr rfl)
      · exact Or.inl h
      · exact Or.inr (Or.inl ⟨_, rfl⟩)
  | error e2 =>
      cases e2 with
      | assertionError l m =>
          rw [check_run_assert c l m hr] at h
          simp only [List.mem_cons, List.mem_append, List.mem_singleton,
            List.not_mem_nil, or_false] at h
          rcases h with rfl | rfl | h | rfl
          · exact Or.inr (Or.inl ⟨_, rfl⟩)
          · exact Or.inr (Or.inr rfl)
          · exact Or.inl h
          · exact Or.inr (Or.inl ⟨_, rfl⟩)
      | keyError k =>
          rw [check_run_raise c (Exc.keyError k) rfl hr] at h
          simp only [List.mem_cons] at h
          rcases h with rfl | rfl | h
          · exact Or.inr (Or.inl ⟨_, rfl⟩)
          · exact Or.inr (Or.inr rfl)
          · exact Or.inl h
      | connError m =>
          rw [check_run_raise c (Exc.connError m) rfl hr] at h
          simp only [List.mem_cons] at h
          rcases h with rfl | rfl | h
          · exact Or.inr (Or.inl ⟨_, rfl⟩)
          · exact Or.inr (Or.inr rfl)
          · exact Or.inl h
      | futureTimeout =>
          rw [check_run_raise c Exc.futureTimeout rfl hr] at h
          simp only [List.mem_cons] at h
          rcases h with rfl | rfl | h
          · exact Or.inr (Or.inl ⟨_, rfl⟩)
          · exact Or.inr (Or.inr rfl)
          · exact Or.inl h
      | systemExit n =>
          rw [check_run_raise c (Exc.systemExit n) rfl hr] at h
          simp only [List.mem_cons] at h
          rcases h with rfl | rfl | h
          · exact Or.inr (Or.inl ⟨_, rfl⟩)
          · exact Or.inr (Or.inr rfl)
          · exact Or.inl h

theorem perform_events (cs : List Check) (e : Ev) :
    e ∈ (perform_http_checks cs).1 → ∃ c ∈ cs, e ∈ (check c).1 := by
  induction cs with
  | nil => intro h; simp [perform_http_checks, M.pure] at h
  | cons c rest ih =>
      intro h
      simp only [perform_http_checks] at h
      rcases mem_bind_trace (check c) _ e h with h1 | ⟨a, _, h2⟩
      · exact ⟨c, by simp, h1⟩
      · obtain ⟨c2, hc2, he2⟩ := ih h2
        exact ⟨c2, by simp [hc2], he2⟩

theorem http_checks_run_events (fetch : String → Response) :
    ∀ c ∈ HTTP_CHECK_FUNCS fetch, ∀ e ∈ c.run.1,
      localModeEv e = true ∧ e ≠ Ev.httpGet URL_BASE := by
  intro c hc e he
  rw [HTTP_CHECK_FUNCS, register_all_id] at hc
  simp only [List.mem_cons, List.not_mem_nil, or_false] at hc
  rcases hc with rfl | rfl | rfl | rfl | rfl | rfl | rfl | rfl | rfl | rfl <;>
  · simp only [http_check_root, http_check_nonexistent_path, http_check_no_params,
      http_check_just_id_param, http_check_invalid_id, http_check_just_language_param,
      http_check_nonexistent_city_id, http_check_plzen_cs, http_check_brno_de,
      http_check_graz_cs_extra_param, session_get, M.bind, emit, M.pure, liftE,
      List.cons_append, List.nil_append, List.mem_singleton] at he
    subst he
    exact ⟨by decide, by decide⟩

theorem test_local_events (fetch : String → Response) (e : Ev)
    (h : e ∈ (test_local fetch).1) :
    localModeEv e = true ∧ e ≠ Ev.httpGet URL_BASE := by
  obtain ⟨c, hc, hce⟩ := perform_events (HTTP_CHECK_FUNCS fetch) e h
  rcases check_events c e hce with h1 | ⟨s, rfl⟩ | rfl
  · exact http_checks_run_events fetch c hc e h1
  · exact ⟨rfl, by simp⟩
  · exact ⟨rfl, by simp⟩

/-- C10: with the single argument `--local` the program runs exactly the
registered HTTP checks (for any state of the environment, which it never
reads), and every event of that run is a print, a check invocation, or an
HTTP GET to a URL extending the fixed base URL; in particular it is never the
bare-base-URL GET of the poller, and no docker, environment-read, log-read, sleep
or stats event occurs, so absent environment variables are not fatal and the
container runtime, readiness poller, log checks and stats collector are never
exercised. -/
theorem local_mode_spec :
    (∀ (env : String → Option String) (attempts : Nat → Attempt)
       (fetch : String → Response) (logs1 logs2 cid : String) (fin : WorkerFin),
      py_main [("./test-image.py"), ("--local")] env attempts fetch logs1 logs2 cid fin =
        test_local fetch ∧
      test_local fetch = perform_http_checks (HTTP_CHECK_FUNCS fetch)) ∧
    (∀ (fetch : String → Response) (e : Ev), e ∈ (test_local fetch).1 →
      localModeEv e = true ∧ e ≠ Ev.httpGet URL_BASE) := by
  constructor
  · intro env attempts fetch logs1 logs2 cid fin
    constructor
    · simp [py_main]
    · rfl
  · intro fetch e he
    exact test_local_events fetch e he

theorem local_mode_spec_witness :
    (py_main [("./test-image.py"), ("--local")] envNone attReadyNow fetchW ("") ("")
        ("cid") (WorkerFin.done (Except.ok ())) = test_local fetchW) ∧
    (localModeEv (Ev.print (("HTTP GET / returns 200 or 404") ++ (": "))) = true ∧
      Ev.print (("HTTP GET / returns 200 or 404") ++ (": ")) ≠ Ev.httpGet URL_BASE) :=
  ⟨(local_mode_spec.1 envNone attReadyNow fetchW ("") ("") ("cid")
      (WorkerFin.done (Except.ok ()))).1,
   local_mode_spec.2 fetchW (Ev.print (("HTTP GET / returns 200 or 404") ++ (": ")))
     (by decide)⟩
